import Mathlib

/-!
Verification development for the maigret-ui backend (`src/backend/main.py`).

The backend tracks long-running external search jobs.  `perform_maigret_search`
reads the external process output line by line, parses progress information with
a fixed set of regular expressions, writes merged snapshots into the session
store (`update_session_data`) and publishes them over WebSocket
(`ConnectionManager.send_progress_update`).  HTTP endpoints
(`get_search_status`, `get_search_results`) answer point-in-time queries.

This file is a shallow embedding of those parts of the code.  Python regular
expressions are compiled by hand into deterministic matchers; the patterns used
by the backend only repeat character classes that are disjoint from the atom
that follows them, so greedy maximal-munch matching coincides with Python's
backtracking semantics, and trying every start position left to right coincides
with `re.search`.  The percentage expressions of the form
`int((checked / total) * 100)` are computed by the backend in Python floats;
they are embedded as exact IEEE binary64 arithmetic (correctly rounded
division and multiplication on mantissa-exponent pairs), which can differ
from the exact rational floor — `int((29 / 100) * 100)` is 28.
Wall-clock times are modelled as absolute milliseconds.
-/

/-- ASCII lowercasing, as applied by Python `str.lower` to the ASCII text the
backend matches on (the bar glyphs are unaffected by lowercasing). -/
def toLowerChar (c : Char) : Char :=
  if 65 ≤ c.toNat && c.toNat ≤ 90 then Char.ofNat (c.toNat + 32) else c

/-- ASCII uppercasing (used by the embedding of Python `str.title`). -/
def toUpperChar (c : Char) : Char :=
  if 97 ≤ c.toNat && c.toNat ≤ 122 then Char.ofNat (c.toNat - 32) else c

/-- Python `\s` on the ASCII whitespace actually present in the output lines. -/
def isSpaceChar (c : Char) : Bool :=
  c = ' ' || c = '\t' || c = '\n' || c = '\r' || c = Char.ofNat 11 || c = Char.ofNat 12

/-- Characters of the visual progress bar character class `[█░]`. -/
def isBarChar (c : Char) : Bool :=
  c = '█' || c = '░'

/-- Python `in` on strings: `needle` occurs as a contiguous sublist. -/
def isSubList (needle : List Char) : List Char → Bool
  | [] => needle.isEmpty
  | c :: t => needle.isPrefixOf (c :: t) || isSubList needle t

/-- Lowercased character list of a string. -/
def lowerList (s : String) : List Char :=
  s.toList.map toLowerChar

/-- Value of a digit run. -/
def digitsToNat (ds : List Char) : Nat :=
  ds.foldl (fun a c => a * 10 + (c.toNat - 48)) 0

/-- Maximal-munch `p+`: the longest nonempty run of characters satisfying `p`. -/
def munch1 (p : Char → Bool) (s : List Char) : Option (List Char × List Char) :=
  let run := s.takeWhile p
  if run.isEmpty then none else some (run, s.dropWhile p)

/-- `\d+` returning the parsed value. -/
def pDigits (s : List Char) : Option (Nat × List Char) :=
  (munch1 Char.isDigit s).map (fun r => (digitsToNat r.1, r.2))

/-- `\s+`. -/
def pSpaces1 (s : List Char) : Option (List Char) :=
  (munch1 isSpaceChar s).map (fun r => r.2)

/-- `\s*`. -/
def pSpaces0 (s : List Char) : List Char :=
  s.dropWhile isSpaceChar

/-- A literal, case-sensitively. -/
def pLit (lit : List Char) (s : List Char) : Option (List Char) :=
  if lit.isPrefixOf s then some (s.drop lit.length) else none

/-- A literal, case-insensitively (for patterns compiled with `re.IGNORECASE`);
`lit` is given pre-lowercased. -/
def pLitCI (lit : List Char) (s : List Char) : Option (List Char) :=
  if decide ((s.take lit.length).map toLowerChar = lit)
  then some (s.drop lit.length) else none

/-- `re.search`: try to match at each start position, leftmost first. -/
def searchPos {α : Type} (m : List Char → Option α) : List Char → Option α
  | [] => m []
  | c :: t =>
    match m (c :: t) with
    | some r => some r
    | none => searchPos m t

/-!
### The progress patterns of `perform_maigret_search` (main.py lines 457-469)

`progress_patterns` in source order.  Patterns 1-7 capture two groups
(checked, total); pattern 8 additionally captures a literal percentage.
-/

/-- A hit of the counter-progress pattern list: `frac n m` for the two-group
patterns, `fracPct n m p` for the `N/M [P%]` pattern. -/
inductive CounterHit where
  | frac (n m : Nat)
  | fracPct (n m p : Nat)
  deriving DecidableEq

/-- Pattern 1: `Searching\s+\|[█░]+\|\s+(\d+)/(\d+)`. -/
def matchP1 (s : List Char) : Option (Nat × Nat) := do
  let s ← pLit "Searching".toList s
  let s ← pSpaces1 s
  let s ← pLit ['|'] s
  let (_, s) ← munch1 isBarChar s
  let s ← pLit ['|'] s
  let s ← pSpaces1 s
  let (n, s) ← pDigits s
  let s ← pLit ['/'] s
  let (m, _) ← pDigits s
  pure (n, m)

/-- Common prefix `(\d+)/(\d+)` of patterns 2-4, 6 and 8. -/
def matchFrac (s : List Char) : Option (Nat × Nat × List Char) := do
  let (n, s) ← pDigits s
  let s ← pLit ['/'] s
  let (m, s) ← pDigits s
  pure (n, m, s)

/-- Pattern 2: `(\d+)/(\d+)\s+\[[█░]+\]`. -/
def matchP2 (s : List Char) : Option (Nat × Nat) := do
  let (n, m, s) ← matchFrac s
  let s ← pSpaces1 s
  let s ← pLit ['['] s
  let (_, s) ← munch1 isBarChar s
  let _ ← pLit [']'] s
  pure (n, m)

/-- Pattern 3: `(\d+)/(\d+)\s+\[[= ]+\]`. -/
def matchP3 (s : List Char) : Option (Nat × Nat) := do
  let (n, m, s) ← matchFrac s
  let s ← pSpaces1 s
  let s ← pLit ['['] s
  let (_, s) ← munch1 (fun c => c = '=' || c = ' ') s
  let _ ← pLit [']'] s
  pure (n, m)

/-- Pattern 4: `(\d+)/(\d+)\s+\[[# ]+\]`. -/
def matchP4 (s : List Char) : Option (Nat × Nat) := do
  let (n, m, s) ← matchFrac s
  let s ← pSpaces1 s
  let s ← pLit ['['] s
  let (_, s) ← munch1 (fun c => c = '#' || c = ' ') s
  let _ ← pLit [']'] s
  pure (n, m)

/-- Pattern 5: `Progress:\s+(\d+)/(\d+)`. -/
def matchP5 (s : List Char) : Option (Nat × Nat) := do
  let s ← pLit "Progress:".toList s
  let s ← pSpaces1 s
  let (n, m, _) ← matchFrac s
  pure (n, m)

/-- Pattern 6: `(\d+)/(\d+)\s+sites?` (the optional `s` does not affect
whether a match exists). -/
def matchP6 (s : List Char) : Option (Nat × Nat) := do
  let (n, m, s) ← matchFrac s
  let s ← pSpaces1 s
  let _ ← pLit "site".toList s
  pure (n, m)

/-- Pattern 7: `Searching\s+\|[█░]+\|\s*(\d+)/(\d+)` (pattern 1 with `\s*`). -/
def matchP7 (s : List Char) : Option (Nat × Nat) := do
  let s ← pLit "Searching".toList s
  let s ← pSpaces1 s
  let s ← pLit ['|'] s
  let (_, s) ← munch1 isBarChar s
  let s ← pLit ['|'] s
  let s := pSpaces0 s
  let (n, s) ← pDigits s
  let s ← pLit ['/'] s
  let (m, _) ← pDigits s
  pure (n, m)

/-- Pattern 8: `(\d+)/(\d+)\s+\[(\d+)%\]`. -/
def matchP8 (s : List Char) : Option (Nat × Nat × Nat) := do
  let (n, m, s) ← matchFrac s
  let s ← pSpaces1 s
  let s ← pLit ['['] s
  let (p, s) ← pDigits s
  let s ← pLit ['%'] s
  let _ ← pLit [']'] s
  pure (n, m, p)

/-- The `for pattern in progress_patterns` loop (lines 471-473): the first
pattern in source order whose `re.search` succeeds wins. -/
def counterMatch (line : List Char) : Option CounterHit :=
  match searchPos matchP1 line with
  | some r => some (.frac r.1 r.2)
  | none =>
  match searchPos matchP2 line with
  | some r => some (.frac r.1 r.2)
  | none =>
  match searchPos matchP3 line with
  | some r => some (.frac r.1 r.2)
  | none =>
  match searchPos matchP4 line with
  | some r => some (.frac r.1 r.2)
  | none =>
  match searchPos matchP5 line with
  | some r => some (.frac r.1 r.2)
  | none =>
  match searchPos matchP6 line with
  | some r => some (.frac r.1 r.2)
  | none =>
  match searchPos matchP7 line with
  | some r => some (.frac r.1 r.2)
  | none =>
  match searchPos matchP8 line with
  | some r => some (.fracPct r.1 r.2.1 r.2.2)
  | none => none

/-- `(\d+)\s+sites?` with `re.IGNORECASE` (line 447). -/
def matchSites (s : List Char) : Option Nat := do
  let (n, s) ← pDigits s
  let s ← pSpaces1 s
  let _ ← pLitCI "site".toList s
  pure n

/-- `Searching\s+\|([█░]+)\|` (line 495), returning the captured bar. -/
def matchBar (s : List Char) : Option (List Char) := do
  let s ← pLit "Searching".toList s
  let s ← pSpaces1 s
  let s ← pLit ['|'] s
  let (bar, s) ← munch1 isBarChar s
  let _ ← pLit ['|'] s
  pure bar

/-- `[^.\s]+` character class of the site-name patterns. -/
def isNameChar (c : Char) : Bool :=
  !(c = '.' || isSpaceChar c)

/-- `(kw)\s+([^.\s]+)` for the keyword site patterns (lines 513-515). -/
def matchKwName (kw : List Char) (s : List Char) : Option (List Char) := do
  let s ← pLit kw s
  let s ← pSpaces1 s
  let (name, _) ← munch1 isNameChar s
  pure name

/-- `\[([^\]]+)\]\s+(kw)` for the bracketed site patterns (lines 516-517). -/
def matchBracketKw (kw : List Char) (s : List Char) : Option (List Char) := do
  let s ← pLit ['['] s
  let (name, s) ← munch1 (fun c => !(c = ']')) s
  let s ← pLit [']'] s
  let s ← pSpaces1 s
  let _ ← pLit kw s
  pure name

/-- The `for pattern in site_check_patterns` loop (lines 520-526): first
matching pattern wins; returns the captured current-site name. -/
def siteMatch (line : List Char) : Option (List Char) :=
  match searchPos (matchKwName "Checking".toList) line with
  | some r => some r
  | none =>
  match searchPos (matchKwName "Searching".toList) line with
  | some r => some r
  | none =>
  match searchPos (matchKwName "Testing".toList) line with
  | some r => some r
  | none =>
  match searchPos (matchBracketKw "Checking".toList) line with
  | some r => some r
  | none =>
  match searchPos (matchBracketKw "Searching".toList) line with
  | some r => some r
  | none => none

/-- The `result_patterns` loop (lines 543-558): all patterns are literals
matched with `re.IGNORECASE`; the loop increments `results_found` at most
once per line (it breaks on the first hit), so only whether any pattern
matches is observable. -/
def resultHit (line : List Char) : Bool :=
  let low := line.map toLowerChar
  isSubList "found!".toList low || isSubList "claimed".toList low ||
  isSubList ['✓'] low || isSubList "[found]".toList low ||
  isSubList "[claimed]".toList low || isSubList "success".toList low

/-!
### IEEE binary64 arithmetic (lines 383, 482, 502)

The backend derives percentages with Python floats:
`int((sites_checked / max(total_sites, 1)) * 100)` and the analogous
expressions at lines 383 and 502.  True division of two machine integers
(here far below 2^53, so exactly representable) and multiplication by the
exactly-representable 100 are correctly rounded binary64 operations (round
to nearest, ties to even), and `int` truncates toward zero.  A nonnegative
binary64 value is embedded as a mantissa-exponent pair and every operation
result is re-rounded to 53 significant bits; the values arising here are
far from the overflow and subnormal ranges, so those cases cannot occur
and are not modelled.  The result can sit one below the exact rational
floor: `int((29 / 100) * 100) = 28`.
-/

/-- Fuel-bounded floor of the base-2 logarithm (the fuel makes the
recursion structural, so proofs can evaluate it). -/
def log2Aux : Nat → Nat → Nat
  | 0, _ => 0
  | fuel + 1, n => if 2 ≤ n then log2Aux fuel (n / 2) + 1 else 0

/-- Floor of the base-2 logarithm of a positive natural. -/
def log2N (n : Nat) : Nat :=
  log2Aux n n

/-- A nonnegative binary64 value `m * 2 ^ e`, with `m = 0` or
`2 ^ 52 ≤ m < 2 ^ 53`. -/
structure F64 where
  m : Nat
  e : Int
  deriving DecidableEq

/-- Whether `a / b ≥ 2 ^ g` for positive naturals `a`, `b`. -/
def ratGePow2 (a b : Nat) (g : Int) : Bool :=
  if 0 ≤ g then b * 2 ^ g.toNat ≤ a else b ≤ a * 2 ^ (-g).toNat

/-- The unique `e` with `2 ^ e ≤ a / b < 2 ^ (e + 1)`, for positive `a`,
`b` (their quotient lies within a factor of two of `2 ^ (log2N a - log2N b)`). -/
def ratLog2 (a b : Nat) : Int :=
  let g : Int := (log2N a : Int) - (log2N b : Int)
  if ratGePow2 a b g then g else g - 1

/-- Round the nonnegative rational `a / b` to the nearest binary64 value,
ties to even — the IEEE rounding applied to every arithmetic result. -/
def rneRat (a b : Nat) : F64 :=
  if a = 0 || b = 0 then ⟨0, 0⟩ else
  let e := ratLog2 a b
  let s : Int := 52 - e
  let num := if 0 ≤ s then a * 2 ^ s.toNat else a
  let den := if 0 ≤ s then b else b * 2 ^ (-s).toNat
  let q := num / den
  let r := num % den
  let m := if 2 * r < den then q
    else if den < 2 * r then q + 1
    else if q % 2 = 0 then q else q + 1
  if m = 2 ^ 53 then ⟨2 ^ 52, e - 51⟩ else ⟨m, e - 52⟩

/-- Python float true division of two nonnegative machine integers (each
exactly representable at the sizes the backend parses). -/
def flDiv (a b : Nat) : F64 :=
  rneRat a b

/-- Float multiplication by the exactly-representable 100: the exact
product, re-rounded to 53 significant bits. -/
def flMul100 (x : F64) : F64 :=
  let r := rneRat (x.m * 100) 1
  ⟨r.m, r.e + x.e⟩

/-- Python `int` on a nonnegative float: truncation toward zero. -/
def floorF (x : F64) : Nat :=
  if 0 ≤ x.e then x.m * 2 ^ x.e.toNat else x.m / 2 ^ (-x.e).toNat

/-- `int((checked / total) * 100)` exactly as the backend's floats compute
it. -/
def pyPctRaw (checked total : Nat) : Nat :=
  floorF (flMul100 (flDiv checked total))

/-!
### Job Runner state (`perform_maigret_search`, lines 363-569)

The loop's local variables (`total_sites`, `sites_checked`, `results_found`,
`current_site`, `last_progress_update`, `start_time`) together with the
session fields the loop writes.  The session's counter fields are always
written with the current values of the locals, so one copy suffices; the
session's `currentSite` and the local `current_site` genuinely diverge
(several branches update only the session field), so both are kept.
`progressWrites` records, oldest first, every `progress` value stored into
the session by `update_session_data` — the sequence of published progress
percentages.  Times are absolute milliseconds; `lastUpdateMs` starts at 0
(the Python initializes `last_progress_update = 0`, an epoch time).
-/
structure SearchState where
  status : String
  progress : Nat
  totalSites : Nat
  sitesChecked : Nat
  resultsFound : Nat
  sessionSite : String
  localSite : String
  startMs : Nat
  lastUpdateMs : Nat
  progressWrites : List Nat
  deriving DecidableEq

/-- Lines 446-455: total-sites discovery — `"sites" in line.lower() and
("searching" in line.lower() or "found" in line.lower())`, then
`re.search(r'(\d+)\s+sites?', line, re.IGNORECASE)`, accepted only while
`total_sites == 0`; stores totalSites, a fixed label, and progress 5. -/
def discoveryStep (st : SearchState) (line : List Char) : SearchState :=
  let low := line.map toLowerChar
  if isSubList "sites".toList low &&
     (isSubList "searching".toList low || isSubList "found".toList low) then
    match searchPos matchSites line with
    | some n =>
      if st.totalSites = 0 then
        { st with totalSites := n, sessionSite := "Starting search...",
                  progress := 5, progressWrites := st.progressWrites ++ [5] }
      else st
    | none => st
  else st

/-- Lines 471-490: counter-progress parsing.  A three-group hit stores the
bracketed percentage verbatim and overwrites `total_sites` unconditionally;
a two-group hit keeps a known nonzero total and derives
`min(95, int((checked / max(total, 1)) * 100))` in float arithmetic. -/
def counterStep (st : SearchState) (line : List Char) : SearchState :=
  match counterMatch line with
  | none => st
  | some (.fracPct n m p) =>
    { st with sitesChecked := n, totalSites := m, progress := p,
              progressWrites := st.progressWrites ++ [p] }
  | some (.frac n m) =>
    let total := if st.totalSites = 0 then m else st.totalSites
    let p := min 95 (pyPctRaw n (max total 1))
    { st with sitesChecked := n, totalSites := total, progress := p,
              progressWrites := st.progressWrites ++ [p] }

/-- Lines 493-509: visual-bar fallback.  Requires the substrings
`'Searching |'` and `'|'`, extracts the glyph bar, estimates
`min(95, int((filled / total_length) * 100))` and stores it only when it
strictly exceeds the progress currently in the session. -/
def visualBarStep (st : SearchState) (line : List Char) : SearchState :=
  if isSubList "Searching |".toList line && isSubList ['|'] line then
    match searchPos matchBar line with
    | some bar =>
      let filled := (bar.filter (fun c => c = '█')).length
      let totalLength := bar.length
      if totalLength > 0 then
        let est := min 95 (pyPctRaw filled totalLength)
        if est > st.progress then
          { st with progress := est,
                    sessionSite := if st.sitesChecked > 0 then
                        "Site " ++ toString (st.sitesChecked + 1)
                      else "Processing sites...",
                    progressWrites := st.progressWrites ++ [est] }
        else st
      else st
    | none => st
  else st

/-- Lines 520-526: current-site extraction; updates both the local variable
and the session field. -/
def siteCheckStep (st : SearchState) (line : List Char) : SearchState :=
  match siteMatch line with
  | some name =>
    { st with localSite := String.mk name, sessionSite := String.mk name }
  | none => st

/-- Lines 529-532: if no site pattern matched but a checked-count is known
and the local label is empty or still `"Initializing..."`, synthesize
`"Site N"`. -/
def genericSiteStep (st : SearchState) (line : List Char) : SearchState :=
  if (siteMatch line).isNone && st.sitesChecked > 0 then
    if st.localSite = "" || st.localSite = "Initializing..." then
      let s := "Site " ++ toString st.sitesChecked
      { st with localSite := s, sessionSite := s }
    else st
  else st

/-- Lines 535-541: after three seconds still `"Initializing..."` — switch to
an activity label and raise progress to at least 4. -/
def initializingStep (st : SearchState) (nowMs : Nat) : SearchState :=
  if st.localSite = "Initializing..." && nowMs - st.startMs > 3000 then
    { st with localSite := "Preparing search environment...",
              sessionSite := "Preparing search environment...",
              progress := max st.progress 4,
              progressWrites := st.progressWrites ++ [max st.progress 4] }
  else st

/-- Lines 543-558: success keywords increment `results_found` once per line. -/
def resultStep (st : SearchState) (line : List Char) : SearchState :=
  if resultHit line then
    { st with resultsFound := st.resultsFound + 1 }
  else st

/-- Lines 376-417, called at line 561: the rate-limited `update_progress`
closure.  When at least 500 ms have passed since the last cycle it stores
either the counter-derived percentage or the elapsed-time estimate
`min(90, max(2, int((elapsed / 5) * 3)))`, together with the current locals
(the session's `currentSite` is overwritten with the local variable). -/
def update_progress (st : SearchState) (nowMs : Nat) : SearchState :=
  if nowMs - st.lastUpdateMs ≥ 500 then
    let p := if st.totalSites > 0 && st.sitesChecked > 0 then
        min 95 (pyPctRaw st.sitesChecked st.totalSites)
      else
        min 90 (max 2 ((nowMs - st.startMs) * 3 / 5000))
    { st with progress := p, sessionSite := st.localSite,
              progressWrites := st.progressWrites ++ [p],
              lastUpdateMs := nowMs }
  else st

/-- Lines 563-569: if progress is still below 3 after two seconds, force it
to 3 with a fixed label. -/
def ensureProgressStep (st : SearchState) (nowMs : Nat) : SearchState :=
  if st.progress < 3 && nowMs - st.startMs > 2000 then
    { st with progress := 3, sessionSite := "Starting search process...",
              progressWrites := st.progressWrites ++ [3] }
  else st

/-- One iteration of the output loop body for a nonempty output line
(lines 438-569), with the branches applied in source order.  `nowMs` is the
wall-clock time during this iteration (the loop body is fast relative to the
granularity of its time comparisons, so one time per line is faithful). -/
def processLine (st : SearchState) (line : String) (nowMs : Nat) : SearchState :=
  let cs := line.toList
  let st := discoveryStep st cs
  let st := counterStep st cs
  let st := visualBarStep st cs
  let st := siteCheckStep st cs
  let st := genericSiteStep st cs
  let st := initializingStep st nowMs
  let st := resultStep st cs
  let st := update_progress st nowMs
  let st := ensureProgressStep st nowMs
  st

/-- The runner state right after the pre-loop updates (lines 279-294,
343-346, 363-368, 419-422) for a job whose process started at absolute time
`startMs`: status `running`, progress 3 stored last, counters zero, session
label `"Searching sites..."`, local label `"Initializing..."`,
`last_progress_update = 0`.  The four pre-loop progress stores 0, 1, 2, 3
are kept in `progressWrites`. -/
def loopEntryState (startMs : Nat) : SearchState :=
  { status := "running", progress := 3, totalSites := 0, sitesChecked := 0,
    resultsFound := 0, sessionSite := "Searching sites...",
    localSite := "Initializing...", startMs := startMs, lastUpdateMs := 0,
    progressWrites := [0, 1, 2, 3] }

/-- Line 373: `timeout_seconds = max(request.options.timeout * 2, 120)`. -/
def timeout_seconds (timeout : Nat) : Nat :=
  max (timeout * 2) 120

/-- How the output loop of lines 424-437 can leave its read cycle:
`timedOut` is the branch of lines 427-433 (process terminated, session
stored as failed with the timeout message), `exitedLoop` is the line-437
`break` on end-of-stream of an exited process, and `stuckInRead` is a loop
that is blocked inside `process.stdout.readline()` with no further return
ever arriving. -/
inductive LoopOutcome where
  | timedOut (terminated : Bool) (status error : String)
  | exitedLoop
  | stuckInRead
  deriving DecidableEq

/-- The control shape of the output loop (lines 424-437): the timeout check
runs at the top of an iteration, and the next iteration begins only after
the blocking `process.stdout.readline()` (line 435) returns.  `events` is
the remaining sequence of readline returns the external process ever
causes, each tagged with the wall-clock time of its arrival: `none` is the
empty read of an exited process (line 436), `some line` a produced output
line.  `checkS` is the time at which the current iteration's check runs
(loop entry, or the arrival of the previously consumed event).  A process
that stays alive but produces nothing further exhausts `events` and leaves
the loop blocked in `readline`: no later timeout check ever runs, however
much wall-clock time passes. -/
def readLoop (startS timeoutS checkS : Nat) :
    List (Nat × Option String) → LoopOutcome
  | [] =>
    if checkS - startS > timeoutS then
      LoopOutcome.timedOut true "failed" "Search timed out"
    else LoopOutcome.stuckInRead
  | (t, ev) :: rest =>
    if checkS - startS > timeoutS then
      LoopOutcome.timedOut true "failed" "Search timed out"
    else
      match ev with
      | none => LoopOutcome.exitedLoop
      | some _ => readLoop startS timeoutS t rest

/-- Lines 645-650: the terminal update on successful result processing —
status `completed` and progress 100 are stored in one merge. -/
def completeUpdate (st : SearchState) : SearchState :=
  { st with status := "completed", progress := 100,
            progressWrites := st.progressWrites ++ [100] }

/-- `[0, 1, 2, 3]`-style write sequences: true when the list is
non-decreasing from left to right. -/
def chainNonDec : List Nat → Bool
  | [] => true
  | [_] => true
  | a :: b :: t => a ≤ b && chainNonDec (b :: t)

/-!
### Result artifact loading and normalization (lines 582-650)

`all_results` is built by loading, per requested username, the JSON artifact
`reports/report_<username>_simple.json`; a missing artifact contributes the
placeholder dict `{"username": username, "sites": {}}` instead (lines
596-605).  Each loaded artifact is a JSON object mapping site names to site
records.  Only dict values carrying a `"status"` key are turned into site
results (line 625); the `"status"` value may itself be a dict with an inner
`"status"` string or any other value rendered with `str` (line 628) —
non-dict statuses other than strings do not occur in the artifacts and are
embedded as their string rendering.
-/

/-- The `"status"` value of a raw site record: a dict with an optional inner
`"status"` string, or a plain string (rendered by `str(status)`). -/
inductive RawStatus where
  | dictS (s : Option String)
  | strS (s : String)
  deriving DecidableEq

/-- A raw site record from an artifact.  `status = none` models the absence
of the `"status"` key; the remaining `Option`s model `dict.get` defaults. -/
structure RawSite where
  status : Option RawStatus := none
  urlMain : Option String := none
  tags : Option (List String) := none
  metadata : Option (List (String × String)) := none
  urlUser : Option String := none
  deriving DecidableEq

/-- A JSON value appearing as an entry of a loaded artifact object: either a
string or a site-record-shaped dict (the placeholder's `"sites": {}` entry
is the dict with no keys, `RawSite` with all fields `none`). -/
inductive JVal where
  | jstr (s : String)
  | jobj (site : RawSite)
  deriving DecidableEq

/-- Lines 589-605: build `all_results` from the requested usernames and the
artifact files on disk (`artifact u = none` models a missing
`report_<u>_simple.json`). -/
def loadArtifacts (usernames : List String)
    (artifact : String → Option (List (String × RawSite))) :
    List (List (String × JVal)) :=
  usernames.map fun u =>
    match artifact u with
    | some d => d.map (fun p => (p.1, JVal.jobj p.2))
    | none => [("username", JVal.jstr u), ("sites", JVal.jobj {})]

/-- Line 628: `status.get("status", "unknown") if isinstance(status, dict)
else str(status)`. -/
def rawStatusString : RawStatus → String
  | .dictS s => s.getD "unknown"
  | .strS s => s

/-- Python `str.title` on the one-word ASCII statuses it is applied to:
uppercase a letter after a non-letter, lowercase a letter after a letter. -/
def titleCaseAux : Bool → List Char → List Char
  | _, [] => []
  | prevAlpha, c :: t =>
    let c2 := if c.isAlpha then (if prevAlpha then toLowerChar c else toUpperChar c) else c
    c2 :: titleCaseAux c.isAlpha t

/-- Python `str.title`. -/
def titleCase (s : String) : String :=
  String.mk (titleCaseAux false s.toList)

/-- Line 629: `raw_status.title() if raw_status.lower() in
["claimed", "unclaimed"] else raw_status`. -/
def normalizeStatus (raw : String) : String :=
  if String.mk (lowerList raw) = "claimed" || String.mk (lowerList raw) = "unclaimed"
  then titleCase raw else raw

/-- One normalized site entry (lines 631-638). -/
structure SiteResult where
  siteName : String
  url : String
  status : String
  tags : List String
  metadata : List (String × String)
  urlUser : String
  deriving DecidableEq

/-- Lines 624-639: an artifact entry contributes a site result exactly when
its value is a dict containing a `"status"` key. -/
def siteEntry (siteName : String) (v : JVal) : Option SiteResult :=
  match v with
  | .jstr _ => none
  | .jobj site =>
    match site.status with
    | none => none
    | some rs =>
      some { siteName := siteName,
             url := site.urlMain.getD "",
             status := normalizeStatus (rawStatusString rs),
             tags := site.tags.getD [],
             metadata := site.metadata.getD [],
             urlUser := site.urlUser.getD "" }

/-- The normalized per-user result (lines 612-617; the constant
`extractedData`/`networkGraph` fields carry no information and are
omitted). -/
structure UserResult where
  username : String
  sites : List SiteResult
  deriving DecidableEq

/-- Lines 610-643: for every requested username, iterate over *all* loaded
result sets and append every qualifying site entry, in order. -/
def formatResults (usernames : List String)
    (all_results : List (List (String × JVal))) : List UserResult :=
  usernames.map fun u =>
    { username := u,
      sites := (all_results.map (fun rd => rd.filterMap (fun p => siteEntry p.1 p.2))).flatten }

/-- The whole exit-code-zero result path: load artifacts, then format. -/
def processArtifacts (usernames : List String)
    (artifact : String → Option (List (String × RawSite))) : List UserResult :=
  formatResults usernames (loadArtifacts usernames artifact)

/-!
### Session store (lines 93-141) and HTTP endpoints (lines 763-799)
-/

/-- A stored session record.  `status`, `progress` and `results` are present
from creation (lines 251-259); the live-progress fields are added only once
the runner starts and are therefore optional, mirroring the `.get` defaults
used by the status endpoint. -/
structure StoredSession where
  status : String
  progress : Nat
  currentSite : Option String := none
  sitesChecked : Option Nat := none
  totalSites : Option Nat := none
  resultsFound : Option Nat := none
  error : Option String := none
  results : List UserResult := []
  deriving DecidableEq

/-- Assoc-list lookup, modelling Python dict access (keys are unique). -/
def lookupA {α : Type} (l : List (String × α)) (k : String) : Option α :=
  (l.find? (fun p => p.1 == k)).map (fun p => p.2)

/-- Replace the value stored under an existing key. -/
def setA {α : Type} (l : List (String × α)) (k : String) (v : α) :
    List (String × α) :=
  l.map (fun p => if p.1 == k then (k, v) else p)

/-- An `updates` dict passed to `update_session_data`: only the supplied
fields overwrite the record (Python `dict.update`). -/
structure SessionUpd where
  status : Option String := none
  progress : Option Nat := none
  currentSite : Option String := none
  sitesChecked : Option Nat := none
  totalSites : Option Nat := none
  resultsFound : Option Nat := none
  error : Option String := none
  results : Option (List UserResult) := none
  deriving DecidableEq

/-- Python `search_sessions[id].update(updates)` at the field level. -/
def applyUpd (s : StoredSession) (u : SessionUpd) : StoredSession :=
  { status := u.status.getD s.status,
    progress := u.progress.getD s.progress,
    currentSite := (u.currentSite.map some).getD s.currentSite,
    sitesChecked := (u.sitesChecked.map some).getD s.sitesChecked,
    totalSites := (u.totalSites.map some).getD s.totalSites,
    resultsFound := (u.resultsFound.map some).getD s.resultsFound,
    error := (u.error.map some).getD s.error,
    results := u.results.getD s.results }

/-- The session store: the `search_sessions` map plus the number of times
`save_sessions` has rewritten the durable snapshot file. -/
structure SessionStore where
  sessions : List (String × StoredSession)
  saveCount : Nat
  deriving DecidableEq

/-- Lines 122-133: `update_session_data` — under the per-session lock, if
the identifier is present, merge the updates and call `save_sessions`;
otherwise only log a warning. -/
def update_session_data (store : SessionStore) (session_id : String)
    (updates : SessionUpd) : SessionStore :=
  match lookupA store.sessions session_id with
  | some s =>
    { sessions := setA store.sessions session_id (applyUpd s updates),
      saveCount := store.saveCount + 1 }
  | none => store

/-- An endpoint outcome: a successful payload or a raised `HTTPException`
with its status code and detail string. -/
inductive ApiOut (α : Type) where
  | ok (data : α)
  | httpError (code : Nat) (detail : String)
  deriving DecidableEq

/-- The payload shape of the status endpoint (lines 775-786). -/
structure StatusData where
  sessionId : String
  status : String
  progress : Nat
  currentSite : Option String
  sitesChecked : Nat
  totalSites : Nat
  resultsFound : Nat
  deriving DecidableEq

/-- Lines 763-786: `GET /api/search/{session_id}` — 404 when the identifier
is unknown, otherwise the snapshot fields with `.get` defaults. -/
def get_search_status (sessions : List (String × StoredSession))
    (session_id : String) : ApiOut StatusData :=
  match lookupA sessions session_id with
  | none => .httpError 404 "Search session not found"
  | some s =>
    .ok { sessionId := session_id, status := s.status, progress := s.progress,
          currentSite := s.currentSite, sitesChecked := s.sitesChecked.getD 0,
          totalSites := s.totalSites.getD 0,
          resultsFound := s.resultsFound.getD 0 }

/-- Lines 788-799: `GET /api/results/{session_id}` — 404 when the identifier
is unknown, 400 when the session exists but is not `completed`, otherwise
the full session record. -/
def get_search_results (sessions : List (String × StoredSession))
    (session_id : String) : ApiOut StoredSession :=
  match lookupA sessions session_id with
  | none => .httpError 404 "Search session not found"
  | some s =>
    if s.status ≠ "completed" then .httpError 400 "Search not completed"
    else .ok s

/-!
### Notifier (`ConnectionManager`, lines 32-63)

Observer channels are modelled by opaque socket identifiers; `sendErr ws`
is the outcome of `websocket.send_text` on socket `ws` (`some e` = the send
raises exception text `e`).  `send_progress_update` is embedded in `Except`
so that "the error is swallowed, never propagated to the caller" is the
statement that the function always returns `Except.ok`.
-/

/-- Lines 41-44: `disconnect` removes the session's entry if present. -/
def disconnectConn (conns : List (String × Nat)) (session_id : String) :
    List (String × Nat) :=
  conns.filter (fun p => !(p.1 == session_id))

/-- Lines 46-63: `send_progress_update` — look up the observer for the
session; on a send failure, disconnect it and swallow the exception.
Returns the resulting connection table and whether the event was
delivered. -/
def send_progress_update (conns : List (String × Nat))
    (sendErr : Nat → Option String) (session_id : String) :
    Except String (List (String × Nat) × Bool) :=
  match lookupA conns session_id with
  | some ws =>
    match sendErr ws with
    | none => .ok (conns, true)
    | some _ => .ok (disconnectConn conns session_id, false)
  | none => .ok (conns, false)

/-!
### Concrete records used by the witnesses and counterexamples
-/

/-- A raw artifact site record as maigret's simple JSON report contains it. -/
def ghRaw : RawSite :=
  { status := some (.dictS (some "claimed")), urlMain := some "https://github.com",
    tags := some ["coding"], metadata := some [], urlUser := some "https://github.com/bob" }

/-- Artifact files on disk for the chosen failing input: a report exists for
`bob` only; `alice`'s report file is missing. -/
def c7Artifacts : String → Option (List (String × RawSite)) :=
  fun u => if u = "bob" then some [("GitHub", ghRaw)] else none

/-- The normalized form of `ghRaw`. -/
def ghSiteResult : SiteResult :=
  { siteName := "GitHub", url := "https://github.com", status := "Claimed",
    tags := ["coding"], metadata := [], urlUser := "https://github.com/bob" }

/-- A small session table with one completed and one running session. -/
def c6Sessions : List (String × StoredSession) :=
  [("a", { status := "completed", progress := 100 }),
   ("b", { status := "running", progress := 10 })]

/-!
### Claims
-/

/-- C1 (counterexample): progress stored for a `running` session is not
non-decreasing.  After total discovery stores 5, the time-based
`update_progress` cycle stores 2 and the counter line `"1/500 sites"`
stores 0 — the write sequence `[0, 1, 2, 3, 5, 2, 0]` decreases twice while
status is still `running`. -/
theorem c1_counterexample :
    chainNonDec (processLine (processLine (loopEntryState 10000)
        "Found 500 sites" 10100) "1/500 sites" 10200).progressWrites = false ∧
    (processLine (processLine (loopEntryState 10000) "Found 500 sites" 10100)
        "1/500 sites" 10200).progressWrites = [0, 1, 2, 3, 5, 2, 0] ∧
    (processLine (processLine (loopEntryState 10000) "Found 500 sites" 10100)
        "1/500 sites" 10200).status = "running" := by
  refine ⟨?_, ?_, ?_⟩ <;> rfl

/-- C1 (amended): only the visual-bar rule is ratcheted — `visualBarStep`
either leaves the state's write sequence unchanged or appends a percentage
strictly greater than the progress currently stored, and never lowers the
stored progress.  (Counter-parsed and time-based updates are not clamped
and can store lower values, as the counterexample shows.) -/
theorem c1_visual_bar_ratchet (st : SearchState) (line : List Char) :
    st.progress ≤ (visualBarStep st line).progress ∧
    ((visualBarStep st line).progressWrites = st.progressWrites ∨
      ∃ p, (visualBarStep st line).progressWrites = st.progressWrites ++ [p] ∧
        st.progress < p) := by
  unfold visualBarStep
  split
  · cases hsb : searchPos matchBar line with
    | none => exact ⟨le_refl _, Or.inl rfl⟩
    | some bar =>
      simp only
      split
      · split
        next hgt => exact ⟨le_of_lt hgt, Or.inr ⟨_, rfl, hgt⟩⟩
        next hgt => exact ⟨le_refl _, Or.inl rfl⟩
      · exact ⟨le_refl _, Or.inl rfl⟩
  · exact ⟨le_refl _, Or.inl rfl⟩

/-- C2 (counterexample): on the three lines of the claim the extractor does
*not* yield sites-total 100, sites-checked 40, label `"example.com"` and
one found result.  The spaced bar format `"| ████░░░░ |"` matches none of
the progress patterns (they all require the glyph run to touch the pipes),
and the site-name character class `[^.\s]+` stops at the dot. -/
theorem c2_counterexample :
    ¬ ((processLine (processLine (processLine (loopEntryState 10000)
          "Searching | ████░░░░ | 40/100" 10100)
          "Checking example.com" 10200) "[FOUND]" 10300).totalSites = 100 ∧
       (processLine (processLine (processLine (loopEntryState 10000)
          "Searching | ████░░░░ | 40/100" 10100)
          "Checking example.com" 10200) "[FOUND]" 10300).sitesChecked = 40 ∧
       (processLine (processLine (processLine (loopEntryState 10000)
          "Searching | ████░░░░ | 40/100" 10100)
          "Checking example.com" 10200) "[FOUND]" 10300).localSite = "example.com" ∧
       (processLine (processLine (processLine (loopEntryState 10000)
          "Searching | ████░░░░ | 40/100" 10100)
          "Checking example.com" 10200) "[FOUND]" 10300).resultsFound = 1) := by
  intro h
  exact absurd h.1 (by decide)

/-- C2 (amended): feeding the extractor the three lines
`"Searching | ████░░░░ | 40/100"`, `"Checking example.com"`, `"[FOUND]"`
from fresh state yields sites-total 0 and sites-checked 0 (no progress
pattern matches the spaced bar format), a current-unit label of
`"example"` (the name pattern stops at the dot), and results-found
incremented by exactly 1. -/
theorem c2_extractor_yield :
    (processLine (processLine (processLine (loopEntryState 10000)
        "Searching | ████░░░░ | 40/100" 10100)
        "Checking example.com" 10200) "[FOUND]" 10300).totalSites = 0 ∧
    (processLine (processLine (processLine (loopEntryState 10000)
        "Searching | ████░░░░ | 40/100" 10100)
        "Checking example.com" 10200) "[FOUND]" 10300).sitesChecked = 0 ∧
    (processLine (processLine (processLine (loopEntryState 10000)
        "Searching | ████░░░░ | 40/100" 10100)
        "Checking example.com" 10200) "[FOUND]" 10300).localSite = "example" ∧
    (processLine (processLine (processLine (loopEntryState 10000)
        "Searching | ████░░░░ | 40/100" 10100)
        "Checking example.com" 10200) "[FOUND]" 10300).sessionSite = "example" ∧
    (processLine (processLine (processLine (loopEntryState 10000)
        "Searching | ████░░░░ | 40/100" 10100)
        "Checking example.com" 10200) "[FOUND]" 10300).resultsFound = 1 := by
  refine ⟨?_, ?_, ?_, ?_, ?_⟩ <;> rfl

/-- C3 (counterexample): a snapshot with progress 100 is stored while the
session is `running`: the line `"500/500 [100%]"` hits the bracketed
percentage pattern, which stores the line's percentage verbatim. -/
theorem c3_counterexample :
    (processLine { loopEntryState 10000 with lastUpdateMs := 10000 }
        "500/500 [100%]" 10100).progress = 100 ∧
    (processLine { loopEntryState 10000 with lastUpdateMs := 10000 }
        "500/500 [100%]" 10100).status = "running" := by
  exact ⟨rfl, rfl⟩

/-- C3 (amended): the terminal success update stores progress 100 together
with status `completed` in one merge, so every `completed` session carries
progress 100; the converse fails while `running` because the bracketed
percentage pattern copies the line's value verbatim (see the
counterexample). -/
theorem c3_completed_progress (st : SearchState) :
    (completeUpdate st).status = "completed" ∧
    (completeUpdate st).progress = 100 ∧
    (completeUpdate st).progressWrites = st.progressWrites ++ [100] := by
  exact ⟨rfl, rfl, rfl⟩

/-- C4 (counterexample): the line `"494/500 [99%]"` matches the counter
pattern `(\d+)/(\d+)\s+\[(\d+)%\]` and the stored percentage is the
bracketed 99, not `min(95, floor(494/500*100)) = 95`. -/
theorem c4_counterexample :
    (processLine { loopEntryState 10000 with lastUpdateMs := 10000 }
        "494/500 [99%]" 10100).progress = 99 ∧
    min 95 (494 * 100 / 500) = 95 ∧
    ¬ (processLine { loopEntryState 10000 with lastUpdateMs := 10000 }
        "494/500 [99%]" 10100).progress = min 95 (494 * 100 / 500) := by
  refine ⟨rfl, rfl, ?_⟩
  intro h
  exact absurd h (by decide)

/-- C4 (amended): for a line whose first matching counter pattern is a
two-group (checked/total) pattern, the derived percentage equals
`min(95, int((checked / max(total, 1)) * 100))` computed in IEEE binary64
floats — where `total` is the already-known total if nonzero, else the
line's — and hence never exceeds 95.  The float value can sit one below
the exact `min(95, floor(checked * 100 / total))`: checked 29 of total 100
derives 28, not 29.  The bracketed-percentage pattern instead stores the
line's value verbatim and can reach 100 (see the counterexample). -/
theorem c4_two_group_formula (st : SearchState) (line : List Char) (n m : Nat)
    (h : counterMatch line = some (CounterHit.frac n m)) :
    (counterStep st line).progress =
      min 95 (pyPctRaw n (max (if st.totalSites = 0 then m else st.totalSites) 1)) ∧
    (counterStep st line).progress ≤ 95 ∧
    pyPctRaw 29 100 = 28 ∧ 29 * 100 / 100 = 29 := by
  unfold counterStep
  rw [h]
  exact ⟨rfl, min_le_left _ _, by decide, by decide⟩

/-- Witness for `c4_two_group_formula` at the line `"Progress: 40/100"`
from fresh extractor state (there the float value agrees with the exact
one, 40). -/
theorem c4_two_group_formula_witness :
    (counterStep (loopEntryState 0) ("Progress: 40/100".toList)).progress =
      min 95 (pyPctRaw 40 (max (if (loopEntryState 0).totalSites = 0 then 100
        else (loopEntryState 0).totalSites) 1)) ∧
    (counterStep (loopEntryState 0) ("Progress: 40/100".toList)).progress ≤ 95 ∧
    pyPctRaw 29 100 = 28 ∧ 29 * 100 / 100 = 29 :=
  c4_two_group_formula (loopEntryState 0) ("Progress: 40/100".toList) 40 100 (by decide)

/-- C5: the deadline itself is `max(2 * timeoutSeconds, 120)` as the claim
says, but the enforcement does not hold for a silently hanging process:
the timeout check only runs when `process.stdout.readline()` returns, so
when the process stays alive and produces no further output (the empty
event sequence) the loop blocks inside `readline` forever — the outcome is
`stuckInRead`, never the terminate-and-fail outcome the claim requires,
for every configured timeout. -/
theorem c5_silent_hang (t startS : Nat) :
    timeout_seconds t = max (2 * t) 120 ∧
    readLoop startS (timeout_seconds t) startS [] = LoopOutcome.stuckInRead ∧
    readLoop startS (timeout_seconds t) startS [] ≠
      LoopOutcome.timedOut true "failed" "Search timed out" := by
  have hchk : ¬ startS - startS > timeout_seconds t := by
    simp [Nat.sub_self]
  refine ⟨by unfold timeout_seconds; rw [Nat.mul_comm], ?_, ?_⟩
  · simp [readLoop, hchk]
  · simp [readLoop, hchk]

/-- C6: requesting status or results for an identifier not in the session
store yields HTTP 404; requesting results for an existing session whose
status is not `completed` yields HTTP 400; requesting results for a
`completed` session returns the full session record. -/
theorem c6_endpoints (sessions : List (String × StoredSession)) (id : String) :
    (lookupA sessions id = none →
      get_search_status sessions id = .httpError 404 "Search session not found" ∧
      get_search_results sessions id = .httpError 404 "Search session not found") ∧
    (∀ s, lookupA sessions id = some s → s.status ≠ "completed" →
      get_search_results sessions id = .httpError 400 "Search not completed") ∧
    (∀ s, lookupA sessions id = some s → s.status = "completed" →
      get_search_results sessions id = .ok s) := by
  refine ⟨fun h => ?_, fun s h hs => ?_, fun s h hs => ?_⟩
  · constructor
    · simp [get_search_status, h]
    · simp [get_search_results, h]
  · simp [get_search_results, h, hs]
  · simp [get_search_results, h, hs]

/-- Witness for `c6_endpoints` on a table with one completed session `"a"`
and one running session `"b"`: results and status for the unknown `"c"`
give 404, results for `"b"` give 400, results for `"a"` return the
record. -/
theorem c6_endpoints_witness :
    (get_search_status c6Sessions "c" = .httpError 404 "Search session not found" ∧
     get_search_results c6Sessions "c" = .httpError 404 "Search session not found") ∧
    get_search_results c6Sessions "b" = .httpError 400 "Search not completed" ∧
    get_search_results c6Sessions "a" = .ok { status := "completed", progress := 100 } :=
  ⟨(c6_endpoints c6Sessions "c").1 (by decide),
   (c6_endpoints c6Sessions "b").2.1 { status := "running", progress := 10 }
     (by decide) (by decide),
   (c6_endpoints c6Sessions "a").2.2 { status := "completed", progress := 100 }
     (by decide) (by decide)⟩

/-- C7: with exit code 0, `usernames = ["alice", "bob"]`, a missing
artifact for `alice` and a one-site artifact for `bob`, the result
formatting loop puts `bob`'s site into `alice`'s entry as well — `alice`'s
normalized site list is not empty and is not built from `alice`'s artifact
alone, because the loop iterates over *all* loaded result sets for every
username (contradicting its own `Find results for this username`
comment). -/
theorem c7_missing_artifact_result :
    processArtifacts ["alice", "bob"] c7Artifacts =
      [{ username := "alice", sites := [ghSiteResult] },
       { username := "bob", sites := [ghSiteResult] }] ∧
    ¬ (processArtifacts ["alice", "bob"] c7Artifacts).all
        (fun u => u.username ≠ "alice" || u.sites.isEmpty) := by
  constructor
  · rfl
  · intro h
    exact absurd h (by decide)

/-- C8 (counterexample): `totalSites`, once set to 500 by the discovery
line `"Found 500 sites"`, is overwritten to 100 by the later line
`"40/100 [40%]"` — the bracketed-percentage pattern assigns the total
unconditionally. -/
theorem c8_counterexample :
    (processLine (loopEntryState 10000) "Found 500 sites" 10100).totalSites = 500 ∧
    (processLine (processLine (loopEntryState 10000) "Found 500 sites" 10100)
        "40/100 [40%]" 10200).totalSites = 100 := by
  exact ⟨rfl, rfl⟩

/-- C8 (amended): the first-occurrence-wins rule holds for the discovery
pattern and all two-group counter patterns — once `totalSites` is nonzero
neither changes it — but the bracketed-percentage pattern overwrites the
total unconditionally (see the counterexample). -/
theorem c8_total_preserved (st : SearchState) (line : List Char)
    (h : st.totalSites ≠ 0) :
    (discoveryStep st line).totalSites = st.totalSites ∧
    (∀ n m, counterMatch line = some (CounterHit.frac n m) →
      (counterStep st line).totalSites = st.totalSites) := by
  constructor
  · simp only [discoveryStep]
    split
    · split <;> rfl
    · rfl
  · intro n m hm
    simp only [counterStep, hm]
    rw [if_neg h]

/-- Witness for `c8_total_preserved` with a known total of 500: the
discovery line `"Found 600 sites"` and the counter line
`"Progress: 40/100"` both leave the total at 500. -/
theorem c8_total_preserved_witness :
    (discoveryStep { loopEntryState 0 with totalSites := 500 }
        ("Found 600 sites".toList)).totalSites =
      ({ loopEntryState 0 with totalSites := 500 } : SearchState).totalSites ∧
    (counterStep { loopEntryState 0 with totalSites := 500 }
        ("Progress: 40/100".toList)).totalSites =
      ({ loopEntryState 0 with totalSites := 500 } : SearchState).totalSites :=
  ⟨(c8_total_preserved { loopEntryState 0 with totalSites := 500 }
      ("Found 600 sites".toList) (by decide)).1,
   (c8_total_preserved { loopEntryState 0 with totalSites := 500 }
      ("Progress: 40/100".toList) (by decide)).2 40 100 (by decide)⟩

/-- C9: `send_progress_update` never propagates an exception to its caller
(it always returns `ok`); with no registered observer it delivers nothing
and leaves the table unchanged; when the send to the registered observer
raises, the observer is removed from the active-connections table and the
error is swallowed. -/
theorem c9_publish_swallows (conns : List (String × Nat))
    (sendErr : Nat → Option String) (session_id : String) :
    (∃ r, send_progress_update conns sendErr session_id = .ok r) ∧
    (lookupA conns session_id = none →
      send_progress_update conns sendErr session_id = .ok (conns, false)) ∧
    (∀ ws e, lookupA conns session_id = some ws → sendErr ws = some e →
      send_progress_update conns sendErr session_id =
        .ok (disconnectConn conns session_id, false) ∧
      lookupA (disconnectConn conns session_id) session_id = none) := by
  refine ⟨?_, fun h => ?_, fun ws e hw he => ?_⟩
  · cases hl : lookupA conns session_id with
    | none => exact ⟨(conns, false), by simp [send_progress_update, hl]⟩
    | some ws =>
      cases he : sendErr ws with
      | none => exact ⟨(conns, true), by simp [send_progress_update, hl, he]⟩
      | some e =>
        exact ⟨(disconnectConn conns session_id, false),
          by simp [send_progress_update, hl, he]⟩
  · simp [send_progress_update, h]
  · refine ⟨by simp [send_progress_update, hw, he], ?_⟩
    simp only [lookupA, disconnectConn]
    rw [List.find?_eq_none.mpr]
    · rfl
    · intro x hx
      have hmem := List.mem_filter.mp hx
      simp only [Bool.not_eq_true'] at hmem
      simp [hmem.2]

/-- Witness for `c9_publish_swallows`: publishing with an empty observer
table delivers nothing, and publishing to observer 7 of session `"a"`
whose send raises removes the observer and returns normally. -/
theorem c9_publish_swallows_witness :
    send_progress_update [] (fun _ => none) "a" = .ok ([], false) ∧
    (send_progress_update [("a", 7)] (fun _ => some "boom") "a" =
        .ok (disconnectConn [("a", 7)] "a", false) ∧
      lookupA (disconnectConn [("a", 7)] "a") "a" = none) :=
  ⟨(c9_publish_swallows [] (fun _ => none) "a").2.1 (by decide),
   (c9_publish_swallows [("a", 7)] (fun _ => some "boom") "a").2.2 7 "boom"
     (by decide) rfl⟩

/-- C10: calling `update_session_data` with an identifier not present in
the session map returns the store unchanged — no record is created or
modified and the durable snapshot is not written (the save counter does
not advance). -/
theorem c10_unknown_id_noop (store : SessionStore) (session_id : String)
    (updates : SessionUpd) (h : lookupA store.sessions session_id = none) :
    update_session_data store session_id updates = store := by
  simp [update_session_data, h]

/-- Witness for `c10_unknown_id_noop`: merging into the unknown identifier
`"b"` of a one-session store leaves the store intact. -/
theorem c10_unknown_id_noop_witness :
    update_session_data
        ⟨[("a", { status := "running", progress := 10 })], 5⟩ "b" {} =
      ⟨[("a", { status := "running", progress := 10 })], 5⟩ :=
  c10_unknown_id_noop
    ⟨[("a", { status := "running", progress := 10 })], 5⟩ "b" {} (by decide)
